import Mathlib

/-!
# Verification of the `pay_records` repository

Shallow embedding of the core of the `pay_records` repository
(`pay_records.py`, `pay_records_refactor.py`, `pay_records_refactor_2.py`):
tax brackets, the tax calculator, the two pay-record variants, record
creation/validation, row import validation and the aggregation loop.
Python `Decimal` values are modelled as `ℚ` (both are exact), and the
`Decimal('infinity')` upper bound as `⊤ : WithTop ℚ`.  Fallible Python code
(`raise ValueError`) is modelled with `Except String`.
-/

set_option autoImplicit false

/-- `TaxBracket` namedtuple `(lower_bound, upper_bound, rates, fixed_amount)`
with `fixed_amount` defaulting to `0` (the namedtuple defaults).  The upper
bound may be `Decimal('infinity')`, hence `WithTop ℚ`. -/
structure TaxBracket where
  lower_bound : ℚ
  upper_bound : WithTop ℚ
  rates : ℚ
  fixed_amount : ℚ := 0
deriving DecidableEq

/-- The condition `bracket.lower_bound <= income < bracket.upper_bound`
tested by the bracket-selection loops. -/
def inBracket (b : TaxBracket) (income : ℚ) : Prop :=
  b.lower_bound ≤ income ∧ (income : WithTop ℚ) < b.upper_bound

instance (b : TaxBracket) (income : ℚ) : Decidable (inBracket b income) :=
  instDecidableAnd

namespace TaxCalculator

/-- `TaxCalculator.calculate_tax` from the refactor files: scan the brackets
in list order, return `rates * income - fixed_amount` for the first bracket
containing `income`, otherwise raise
`ValueError("No suitable tax bracket for income: ...")`. -/
def calculate_tax (table : List TaxBracket) (income : ℚ) : Except String ℚ :=
  match table with
  | [] => .error "No suitable tax bracket for income"
  | bracket :: rest =>
      if inBracket bracket income then
        .ok (bracket.rates * income - bracket.fixed_amount)
      else
        calculate_tax rest income

end TaxCalculator

/-- `ResidentPayRecord.TAX_BRACKETS` (identical in all three files). -/
def ResidentPayRecord.TAX_BRACKETS : List TaxBracket :=
  [ { lower_bound := 0, upper_bound := ((72 : ℚ) : WithTop ℚ), rates := 0.19, fixed_amount := 0.19 },
    { lower_bound := 72, upper_bound := ((361 : ℚ) : WithTop ℚ), rates := 0.2342, fixed_amount := 3.213 },
    { lower_bound := 361, upper_bound := ((932 : ℚ) : WithTop ℚ), rates := 0.3477, fixed_amount := 44.2476 },
    { lower_bound := 932, upper_bound := ((1380 : ℚ) : WithTop ℚ), rates := 0.345, fixed_amount := 41.7311 },
    { lower_bound := 1380, upper_bound := ((3111 : ℚ) : WithTop ℚ), rates := 0.39, fixed_amount := 103.8657 },
    { lower_bound := 3111, upper_bound := ⊤, rates := 0.47, fixed_amount := 352.788 } ]

/-- `WorkingHolidayPayRecord.TAX_BRACKETS` (identical in all three files);
`fixed_amount` is the namedtuple default `0` in every band. -/
def WorkingHolidayPayRecord.TAX_BRACKETS : List TaxBracket :=
  [ { lower_bound := 0, upper_bound := ((37000 : ℚ) : WithTop ℚ), rates := 0.15 },
    { lower_bound := 37000, upper_bound := ((90000 : ℚ) : WithTop ℚ), rates := 0.32 },
    { lower_bound := 90000, upper_bound := ((180000 : ℚ) : WithTop ℚ), rates := 0.37 },
    { lower_bound := 180000, upper_bound := ⊤, rates := 0.45 } ]

/-- `sum(hour * rate for hour, rate in zip(hours, rates))`: the zip-based
reduction used by both `income`/`gross` properties.  Python's `zip` (and
`List.zip`) silently truncate to the shorter list. -/
def sumPairs (hours rates : List ℚ) : ℚ :=
  ((hours.zip rates).map (fun p => p.1 * p.2)).sum

/-- The closed pay-record variant set of the refactor files: `ResidentPayRecord`
(fields `_id`, `_hours`, `_rates`) and `WorkingHolidayPayRecord` (additionally
`_visa`, `_year_to_date`). -/
inductive PayRecord where
  | resident (_id : ℕ) (_hours : List ℚ) (_rates : List ℚ)
  | workingHoliday (_id : ℕ) (_hours : List ℚ) (_rates : List ℚ)
      (_visa : String) (_year_to_date : ℚ)
deriving DecidableEq

namespace PayRecord

/-- The `id` property. -/
def id : PayRecord → ℕ
  | .resident i _ _ => i
  | .workingHoliday i _ _ _ _ => i

/-- The `_hours` field. -/
def hours : PayRecord → List ℚ
  | .resident _ h _ => h
  | .workingHoliday _ h _ _ _ => h

/-- The `_rates` field. -/
def rates : PayRecord → List ℚ
  | .resident _ _ r => r
  | .workingHoliday _ _ r _ _ => r

/-- The `_visa` field (`none` for residents, which have no such field). -/
def visa : PayRecord → Option String
  | .resident _ _ _ => none
  | .workingHoliday _ _ _ v _ => some v

/-- The `_year_to_date` field (`none` for residents, which have no such field). -/
def year_to_date : PayRecord → Option ℚ
  | .resident _ _ _ => none
  | .workingHoliday _ _ _ _ y => some y

/-- The prior year-to-date carried into `income`: `0` for residents,
`_year_to_date` for working-holiday records. -/
def prior : PayRecord → ℚ
  | .resident _ _ _ => 0
  | .workingHoliday _ _ _ _ y => y

/-- The bracket table each variant passes to its `TaxCalculator`. -/
def brackets : PayRecord → List TaxBracket
  | .resident _ _ _ => ResidentPayRecord.TAX_BRACKETS
  | .workingHoliday _ _ _ _ _ => WorkingHolidayPayRecord.TAX_BRACKETS

/-- The `income` property of the refactor files:
`ResidentPayRecord.income = sum(hour * rate ...)`;
`WorkingHolidayPayRecord.income = self._year_to_date + sum(hour * rate ...)`. -/
def income : PayRecord → ℚ
  | .resident _ h r => sumPairs h r
  | .workingHoliday _ h r _ y => y + sumPairs h r

/-- The `tax` property: `self._tax_calculator.calculate_tax(self.income)`. -/
def tax (rec : PayRecord) : Except String ℚ :=
  TaxCalculator.calculate_tax rec.brackets rec.income

/-- The `net` property: `self.income - self.tax` (an exception raised by
`tax` propagates). -/
def net (rec : PayRecord) : Except String ℚ :=
  rec.tax.map (fun t => rec.income - t)

/-- `add_hours`: extends `_hours` in place.  (The `isinstance(..., Decimal)`
guard always passes in this typed model, as it does for rows parsed with
`Decimal(...)`.) -/
def add_hours : PayRecord → List ℚ → PayRecord
  | .resident i h r, hs => .resident i (h ++ hs) r
  | .workingHoliday i h r v y, hs => .workingHoliday i (h ++ hs) r v y

/-- `add_rates`: extends `_rates` in place. -/
def add_rates : PayRecord → List ℚ → PayRecord
  | .resident i h r, rs => .resident i h (r ++ rs)
  | .workingHoliday i h r v y, rs => .workingHoliday i h (r ++ rs) v y

end PayRecord

/-- Rewriting the bracket-membership test to plain rational inequalities,
finite upper bound case. -/
theorem inBracket_coe_iff (l u r f x : ℚ) :
    inBracket { lower_bound := l, upper_bound := (u : WithTop ℚ), rates := r,
                fixed_amount := f } x ↔ l ≤ x ∧ x < u := by
  simp only [inBracket]
  exact and_congr Iff.rfl WithTop.coe_lt_coe

/-- Rewriting the bracket-membership test to plain rational inequalities,
infinite upper bound case. -/
theorem inBracket_top_iff (l r f x : ℚ) :
    inBracket { lower_bound := l, upper_bound := ⊤, rates := r,
                fixed_amount := f } x ↔ l ≤ x := by
  simp only [inBracket]
  exact and_iff_left (WithTop.coe_lt_top x)

/-- Evaluation of the spec's Resident example record: the tax actually
computed by the code is `173.0649`. -/
theorem resident_example_tax_eval :
    PayRecord.tax (.resident 1 [10, 5] [40, 45]) = .ok 173.0649 := by
  simp only [PayRecord.tax, PayRecord.income, PayRecord.brackets, sumPairs,
    TaxCalculator.calculate_tax, ResidentPayRecord.TAX_BRACKETS,
    inBracket_coe_iff, inBracket_top_iff]
  norm_num

/-- Evaluation of the spec's Resident example record: the net actually
computed by the code is `451.9351`. -/
theorem resident_example_net_eval :
    PayRecord.net (.resident 1 [10, 5] [40, 45]) = .ok 451.9351 := by
  simp only [PayRecord.net, PayRecord.tax, PayRecord.income, PayRecord.brackets, sumPairs,
    TaxCalculator.calculate_tax, ResidentPayRecord.TAX_BRACKETS, Except.map,
    inBracket_coe_iff, inBracket_top_iff]
  norm_num

/-- `create_pay_record` from `pay_records_refactor.py`: reject non-positive
hours, then non-positive rates, with a `ValueError`; otherwise dispatch on the
presence of a visa designator. -/
def create_pay_record (employee_id : ℕ) (hours rates : List ℚ)
    (visa : Option String) (year_to_date : ℚ) : Except String PayRecord :=
  if ∃ hour ∈ hours, hour ≤ 0 then
    .error "Hours worked must be positive values"
  else if ∃ rate ∈ rates, rate ≤ 0 then
    .error "Rates must be positive values"
  else
    match visa with
    | some v => .ok (.workingHoliday employee_id hours rates v year_to_date)
    | none => .ok (.resident employee_id hours rates)

/-- One parsed input row as consumed by the `main` loop of
`pay_records_refactor.py` (employee id, hours, rates, recognized visa or
`None`, year-to-date defaulting to `0`). -/
structure Row where
  employee_id : ℕ
  hours : List ℚ
  rates : List ℚ
  visa : Option String
  year_to_date : ℚ

/-- In-place mutation of the record stored under key `i` of the
`combined_records` mapping (modelled as an association list in insertion
order, as a Python `dict` keyed by `int` behaves). -/
def updateRecord (m : List (ℕ × PayRecord)) (i : ℕ)
    (f : PayRecord → PayRecord) : List (ℕ × PayRecord) :=
  m.map (fun p => if p.1 = i then (p.1, f p.2) else p)

/-- The body of the `main` aggregation loop of `pay_records_refactor.py` for
one row: first occurrence of an employee id goes through `create_pay_record`
(whose `ValueError` propagates), a repeat occurrence calls `add_hours` and
`add_rates` on the stored record. -/
def processRow (m : List (ℕ × PayRecord)) (row : Row) :
    Except String (List (ℕ × PayRecord)) :=
  match m.lookup row.employee_id with
  | none =>
      (create_pay_record row.employee_id row.hours row.rates
        row.visa row.year_to_date).map
        (fun rec => m ++ [(row.employee_id, rec)])
  | some _ =>
      .ok (updateRecord m row.employee_id
        (fun rec => (rec.add_hours row.hours).add_rates row.rates))

/-- `MIN_COLUMN_VAL` from `pay_records_refactor.py`. -/
def MIN_COLUMN_VAL : ℕ := 3

/-- `import_pay_records` from `pay_records_refactor.py` (post header skip):
the generator yields rows until it meets one with fewer than
`MIN_COLUMN_VAL` columns, at which point it raises `ValueError` — returned
here as the list of rows actually yielded together with the error, if any.
The `ValueError` is not caught anywhere, so rows after a malformed one are
never seen by the caller. -/
def import_pay_records : List (List String) → List (List String) × Option String
  | [] => ([], none)
  | row :: rest =>
      if row.length < MIN_COLUMN_VAL then
        ([], some "A row does not contain 3 columns")
      else
        let p := import_pay_records rest
        (row :: p.1, p.2)

/-- One parsed input row as consumed by `PaySlipGenerator._read_records` of
`pay_records_refactor_2.py`: the `*rest` columns may each be absent or
empty. -/
structure Row2 where
  employee_id : ℕ
  hours : List ℚ
  rates : List ℚ
  visa : Option String
  year_to_date : Option ℚ

/-- `PayRecordFactoryImpl.create` from `pay_records_refactor_2.py`:
`if visa and year_to_date` produce a working-holiday record, otherwise a
resident record.  No value validation is performed here. -/
def PayRecordFactoryImpl.create (employee_id : ℕ) (hours rates : List ℚ)
    (visa : Option String) (year_to_date : Option ℚ) : PayRecord :=
  match visa, year_to_date with
  | some v, some y => .workingHoliday employee_id hours rates v y
  | _, _ => .resident employee_id hours rates

/-- The body of the `PaySlipGenerator._read_records` loop of
`pay_records_refactor_2.py` for one row: create via the factory on first
sight of an employee id, otherwise `add_hours` and `add_rates` on the stored
record. -/
def PaySlipGenerator.read_records_step (m : List (ℕ × PayRecord))
    (row : Row2) : List (ℕ × PayRecord) :=
  match m.lookup row.employee_id with
  | none =>
      m ++ [(row.employee_id,
        PayRecordFactoryImpl.create row.employee_id row.hours row.rates
          row.visa row.year_to_date)]
  | some _ =>
      updateRecord m row.employee_id
        (fun rec => (rec.add_hours row.hours).add_rates row.rates)

/-- `PaySlipGenerator._read_records` of `pay_records_refactor_2.py`: fold the
per-row step over the yielded rows, starting from the empty mapping. -/
def PaySlipGenerator.read_records (rows : List Row2) : List (ℕ × PayRecord) :=
  rows.foldl PaySlipGenerator.read_records_step []

namespace PayRecordsV1

/-- `WorkingHolidayPayRecord` from the original `pay_records.py` (its tax
property differs from the refactor files). -/
structure WorkingHolidayPayRecord where
  _id : ℕ
  _hours : List ℚ
  _rates : List ℚ
  _visa : String
  _year_to_date : ℚ

/-- The `gross` property of `pay_records.py`:
`sum(hour * rate for hour, rate in zip(self._hours, self._rates))`. -/
def WorkingHolidayPayRecord.gross (rec : WorkingHolidayPayRecord) : ℚ :=
  sumPairs rec._hours rec._rates

/-- The `year_to_date` property of `pay_records.py`:
`self._year_to_date + self.gross`. -/
def WorkingHolidayPayRecord.year_to_date (rec : WorkingHolidayPayRecord) : ℚ :=
  rec._year_to_date + rec.gross

/-- The bracket-selection loop of `WorkingHolidayPayRecord.tax` in
`pay_records.py`: select on `sel`, return `bracket.rates * base`; falling off
the loop returns Python's implicit `None`. -/
def taxLoop (table : List TaxBracket) (sel base : ℚ) : Option ℚ :=
  match table with
  | [] => none
  | bracket :: rest =>
      if inBracket bracket sel then some (bracket.rates * base)
      else taxLoop rest sel base

/-- The `tax` property of `WorkingHolidayPayRecord` in `pay_records.py`: the
bracket is selected on `self.year_to_date` but the rate is applied to
`self.gross`. -/
def WorkingHolidayPayRecord.tax (rec : WorkingHolidayPayRecord) : Option ℚ :=
  taxLoop WorkingHolidayPayRecord.TAX_BRACKETS rec.year_to_date rec.gross

/-- The inherited `net` property of `pay_records.py`:
`self.gross - self.tax`. -/
def WorkingHolidayPayRecord.net (rec : WorkingHolidayPayRecord) : Option ℚ :=
  rec.tax.map (fun t => rec.gross - t)

end PayRecordsV1

/-- Helper: if some bracket of the table contains the income, the scan
returns a value. -/
theorem calculate_tax_ok_of_mem (x : ℚ) :
    ∀ table : List TaxBracket, (∃ b ∈ table, inBracket b x) →
      ∃ t, TaxCalculator.calculate_tax table x = .ok t
  | [], h => by simp at h
  | b :: rest, h => by
      by_cases hb : inBracket b x
      · exact ⟨b.rates * x - b.fixed_amount,
          by simp [TaxCalculator.calculate_tax, hb]⟩
      · obtain ⟨c, hc, hcx⟩ := h
        rcases List.mem_cons.mp hc with rfl | hcr
        · exact absurd hcx hb
        · obtain ⟨t, ht⟩ := calculate_tax_ok_of_mem x rest ⟨c, hcr, hcx⟩
          exact ⟨t, by simp [TaxCalculator.calculate_tax, hb, ht]⟩

/-- Helper: if no bracket of the table contains the income, the scan falls
through to the `ValueError`. -/
theorem calculate_tax_error_of_forall (x : ℚ) :
    ∀ table : List TaxBracket, (∀ b ∈ table, ¬ inBracket b x) →
      TaxCalculator.calculate_tax table x
        = .error "No suitable tax bracket for income"
  | [], _ => rfl
  | b :: rest, h => by
      have hb : ¬ inBracket b x := h b (List.mem_cons_self b rest)
      have ih := calculate_tax_error_of_forall x rest
        (fun c hc => h c (List.mem_cons_of_mem b hc))
      simp [TaxCalculator.calculate_tax, hb, ih]

/-- Helper: every lower bound of both fixed tables is nonnegative. -/
theorem fixed_tables_lower_nonneg (b : TaxBracket)
    (hb : b ∈ ResidentPayRecord.TAX_BRACKETS ∨
          b ∈ WorkingHolidayPayRecord.TAX_BRACKETS) :
    0 ≤ b.lower_bound := by
  rcases hb with hb | hb <;> fin_cases hb <;> norm_num

/-- C5: `calculate_tax` signals the "no matching bracket" `ValueError` (rather
than returning a value) whenever the income is negative — for both fixed
tables — and, for any table, whenever no band contains the income (income
exceeding all bands included). -/
theorem calculate_tax_no_bracket_error (income : ℚ) :
    (income < 0 →
      TaxCalculator.calculate_tax ResidentPayRecord.TAX_BRACKETS income
        = .error "No suitable tax bracket for income" ∧
      TaxCalculator.calculate_tax WorkingHolidayPayRecord.TAX_BRACKETS income
        = .error "No suitable tax bracket for income") ∧
    (∀ table : List TaxBracket, (∀ b ∈ table, ¬ inBracket b income) →
      TaxCalculator.calculate_tax table income
        = .error "No suitable tax bracket for income") := by
  constructor
  · intro hneg
    constructor
    · refine calculate_tax_error_of_forall income _ (fun b hb => ?_)
      rintro ⟨hl, -⟩
      have := fixed_tables_lower_nonneg b (Or.inl hb)
      linarith
    · refine calculate_tax_error_of_forall income _ (fun b hb => ?_)
      rintro ⟨hl, -⟩
      have := fixed_tables_lower_nonneg b (Or.inr hb)
      linarith
  · exact fun table h => calculate_tax_error_of_forall income table h

/-- Witness for C5 at the concrete income `-1`. -/
theorem calculate_tax_no_bracket_error_witness :
    TaxCalculator.calculate_tax ResidentPayRecord.TAX_BRACKETS (-1)
      = .error "No suitable tax bracket for income" ∧
    TaxCalculator.calculate_tax WorkingHolidayPayRecord.TAX_BRACKETS (-1)
      = .error "No suitable tax bracket for income" :=
  (calculate_tax_no_bracket_error (-1)).1 (by norm_num)

/-- C2: `calculate_tax` returns `rates * income - fixed_amount` for the first
band (in scan order) containing the income, half-open and lower-inclusive; on
the Resident example record (hours `[10, 5]`, rates `[40, 45]`, income `625`,
band `(361, 932, 0.3477, 44.2476)`) the tax is `173.0649` and the net is
`451.9351` — not the claim's `173.3649`/`451.6351`, which are arithmetic
slips (`0.3477 * 625 - 44.2476 = 173.0649`). -/
theorem calculate_tax_first_band (income : ℚ) (table : List TaxBracket) :
    TaxCalculator.calculate_tax table income
      = (match table.find? (fun b => decide (inBracket b income)) with
         | some b => .ok (b.rates * income - b.fixed_amount)
         | none => .error "No suitable tax bracket for income") ∧
    PayRecord.tax (.resident 1 [10, 5] [40, 45]) = .ok 173.0649 ∧
    PayRecord.net (.resident 1 [10, 5] [40, 45]) = .ok 451.9351 := by
  refine ⟨?_, resident_example_tax_eval, resident_example_net_eval⟩
  induction table with
  | nil => rfl
  | cons b rest ih =>
    by_cases hb : inBracket b income
    · rw [List.find?_cons_of_pos _ (by simpa using hb)]
      simp [TaxCalculator.calculate_tax, hb]
    · rw [List.find?_cons_of_neg _ (by simpa using hb)]
      simp only [TaxCalculator.calculate_tax, if_neg hb]
      exact ih

/-- Counterexample for C2 as stated: on the Resident example record the code
computes tax `173.0649`, not `173.3649`, and net `451.9351`, not
`451.6351`. -/
theorem resident_example_values_cex :
    PayRecord.tax (.resident 1 [10, 5] [40, 45]) = .ok 173.0649 ∧
    PayRecord.tax (.resident 1 [10, 5] [40, 45]) ≠ .ok 173.3649 ∧
    PayRecord.net (.resident 1 [10, 5] [40, 45]) ≠ .ok 451.6351 := by
  refine ⟨resident_example_tax_eval, ?_, ?_⟩
  · rw [resident_example_tax_eval]
    simp only [ne_eq, Except.ok.injEq]
    norm_num
  · rw [resident_example_net_eval]
    simp only [ne_eq, Except.ok.injEq]
    norm_num

/-- Helper: a zip-based product sum of entrywise nonnegative lists is
nonnegative. -/
theorem sumPairs_nonneg :
    ∀ hours rates : List ℚ, (∀ x ∈ hours, 0 ≤ x) → (∀ x ∈ rates, 0 ≤ x) →
      0 ≤ sumPairs hours rates
  | [], _, _, _ => by simp [sumPairs]
  | _ :: _, [], _, _ => by simp [sumPairs]
  | a :: t, b :: u, hh, hr => by
      have h1 : 0 ≤ a * b := mul_nonneg (hh a (by simp)) (hr b (by simp))
      have h2 : 0 ≤ sumPairs t u :=
        sumPairs_nonneg t u (fun x hx => hh x (by simp [hx]))
          (fun x hx => hr x (by simp [hx]))
      have h3 : sumPairs (a :: t) (b :: u) = a * b + sumPairs t u := by
        simp [sumPairs]
      linarith

/-- C10: a Resident record built from strictly positive hours and rates with
income below `1` passes `create_pay_record` validation, yet its tax
`0.19 * income - 0.19` is negative, so its net exceeds its income. -/
theorem resident_low_income_negative_tax (i : ℕ) (hours rates : List ℚ)
    (hh : ∀ x ∈ hours, 0 < x) (hr : ∀ x ∈ rates, 0 < x)
    (hlt : sumPairs hours rates < 1) :
    create_pay_record i hours rates none 0 = .ok (.resident i hours rates) ∧
    PayRecord.tax (.resident i hours rates)
      = .ok (0.19 * sumPairs hours rates - 0.19) ∧
    0.19 * sumPairs hours rates - 0.19 < 0 ∧
    PayRecord.net (.resident i hours rates)
      = .ok (sumPairs hours rates - (0.19 * sumPairs hours rates - 0.19)) ∧
    PayRecord.income (.resident i hours rates)
      < sumPairs hours rates - (0.19 * sumPairs hours rates - 0.19) := by
  have h0 : 0 ≤ sumPairs hours rates :=
    sumPairs_nonneg hours rates (fun x hx => le_of_lt (hh x hx))
      (fun x hx => le_of_lt (hr x hx))
  have htax : PayRecord.tax (.resident i hours rates)
      = .ok (0.19 * sumPairs hours rates - 0.19) := by
    simp only [PayRecord.tax, PayRecord.income, PayRecord.brackets,
      ResidentPayRecord.TAX_BRACKETS, TaxCalculator.calculate_tax]
    rw [if_pos ((inBracket_coe_iff 0 72 0.19 0.19 _).mpr ⟨h0, by linarith⟩)]
  refine ⟨?_, htax, by linarith, ?_, ?_⟩
  · rw [create_pay_record, if_neg, if_neg]
    · rintro ⟨x, hx, hx0⟩
      exact absurd hx0 (not_le.mpr (hr x hx))
    · rintro ⟨x, hx, hx0⟩
      exact absurd hx0 (not_le.mpr (hh x hx))
  · simp only [PayRecord.net, htax, Except.map, PayRecord.income]
  · simp only [PayRecord.income]
    linarith

/-- Witness for C10 at the concrete record hours `[0.5]`, rates `[1]`. -/
theorem resident_low_income_negative_tax_witness :
    create_pay_record 1 [0.5] [1] none 0 = .ok (.resident 1 [0.5] [1]) ∧
    PayRecord.tax (.resident 1 [0.5] [1])
      = .ok (0.19 * sumPairs [0.5] [1] - 0.19) ∧
    0.19 * sumPairs [0.5] [1] - 0.19 < 0 ∧
    PayRecord.net (.resident 1 [0.5] [1])
      = .ok (sumPairs [0.5] [1] - (0.19 * sumPairs [0.5] [1] - 0.19)) ∧
    PayRecord.income (.resident 1 [0.5] [1])
      < sumPairs [0.5] [1] - (0.19 * sumPairs [0.5] [1] - 0.19) :=
  resident_low_income_negative_tax 1 [0.5] [1]
    (by intro x hx; rw [List.mem_singleton] at hx; subst hx; norm_num)
    (by intro x hx; rw [List.mem_singleton] at hx; subst hx; norm_num)
    (by norm_num [sumPairs])

/-- C1: evaluation of the claim's WorkingHoliday example (prior year-to-date
`36000`, hours `[100]`, rates `[30]`) in both iterations.  In
`pay_records.py` the bracket `(37000, 90000, 0.32)` is selected on cumulative
income `39000` but the rate is applied to the current-period gross `3000`:
tax `960`, net `2040`, exactly as the claim states.  The refactor files
instead pass the cumulative `income = 39000` to `calculate_tax`, which
applies the rate to it: tax `12480 = 0.32 * 39000`, net `26520` — the
refactors lost the select-on-cumulative / tax-current-gross asymmetry the
spec requires to be preserved. -/
theorem workingHoliday_tax_base_divergence :
    (PayRecordsV1.WorkingHolidayPayRecord.tax ⟨7, [100], [30], "417", 36000⟩
        = some 960 ∧
     PayRecordsV1.WorkingHolidayPayRecord.net ⟨7, [100], [30], "417", 36000⟩
        = some 2040) ∧
    (PayRecord.tax (.workingHoliday 7 [100] [30] "417" 36000) = .ok 12480 ∧
     PayRecord.net (.workingHoliday 7 [100] [30] "417" 36000) = .ok 26520) := by
  have h1 : PayRecordsV1.WorkingHolidayPayRecord.tax ⟨7, [100], [30], "417", 36000⟩
      = some 960 := by
    simp only [PayRecordsV1.WorkingHolidayPayRecord.tax,
      PayRecordsV1.WorkingHolidayPayRecord.year_to_date,
      PayRecordsV1.WorkingHolidayPayRecord.gross, PayRecordsV1.taxLoop,
      sumPairs, WorkingHolidayPayRecord.TAX_BRACKETS,
      inBracket_coe_iff, inBracket_top_iff]
    norm_num
  have h2 : PayRecord.tax (.workingHoliday 7 [100] [30] "417" 36000)
      = .ok 12480 := by
    simp only [PayRecord.tax, PayRecord.income, PayRecord.brackets, sumPairs,
      TaxCalculator.calculate_tax, WorkingHolidayPayRecord.TAX_BRACKETS,
      inBracket_coe_iff, inBracket_top_iff]
    norm_num
  refine ⟨⟨h1, ?_⟩, h2, ?_⟩
  · simp only [PayRecordsV1.WorkingHolidayPayRecord.net, h1, Option.map_some',
      PayRecordsV1.WorkingHolidayPayRecord.gross, sumPairs]
    norm_num
  · simp only [PayRecord.net, h2, Except.map, PayRecord.income, sumPairs]
    norm_num

/-- C8: `income`, `tax` and `net` are pure derivations — two reads of an
unmutated record agree — and after appending hours and rates the derived
values are recomputed from the extended sequences: the new income is the
(unchanged) prior year-to-date carryover plus the zip-sum over the
concatenated hours/rates, and tax and net are derived from that new
income. -/
theorem derived_values_recomputed (rec : PayRecord) (hs rs : List ℚ) :
    (rec.income = rec.income ∧ rec.tax = rec.tax ∧ rec.net = rec.net) ∧
    ((rec.add_hours hs).add_rates rs).hours = rec.hours ++ hs ∧
    ((rec.add_hours hs).add_rates rs).rates = rec.rates ++ rs ∧
    ((rec.add_hours hs).add_rates rs).prior = rec.prior ∧
    ((rec.add_hours hs).add_rates rs).income
      = rec.prior + sumPairs (rec.hours ++ hs) (rec.rates ++ rs) ∧
    ((rec.add_hours hs).add_rates rs).tax
      = TaxCalculator.calculate_tax ((rec.add_hours hs).add_rates rs).brackets
          ((rec.add_hours hs).add_rates rs).income ∧
    ((rec.add_hours hs).add_rates rs).net
      = (((rec.add_hours hs).add_rates rs).tax).map
          (fun t => ((rec.add_hours hs).add_rates rs).income - t) := by
  refine ⟨⟨rfl, rfl, rfl⟩, ?_, ?_, ?_, ?_, rfl, rfl⟩ <;>
    cases rec <;>
      simp [PayRecord.add_hours, PayRecord.add_rates, PayRecord.hours,
        PayRecord.rates, PayRecord.prior, PayRecord.income]

/-- Helper: the zip-based reduction equals the sum of positional products
over the first `min` of the two lengths. -/
theorem sumPairs_eq_sum_range :
    ∀ hours rates : List ℚ,
      sumPairs hours rates
        = ∑ k in Finset.range (min hours.length rates.length),
            hours.getD k 0 * rates.getD k 0
  | [], r => by simp [sumPairs]
  | a :: t, [] => by simp [sumPairs]
  | a :: t, b :: u => by
      have ih := sumPairs_eq_sum_range t u
      have h1 : sumPairs (a :: t) (b :: u) = a * b + sumPairs t u := by
        simp [sumPairs]
      have h2 : min (a :: t).length (b :: u).length
          = min t.length u.length + 1 := by
        simp [Nat.succ_min_succ]
      rw [h1, ih, h2, Finset.sum_range_succ']
      simp [List.getD_cons_succ, List.getD_cons_zero]
      ring

/-- C9: when the hours and rates sequences have unequal length, both
variants' `income` silently truncates to the shorter sequence: it is the sum
of `hours[k] * rates[k]` over `k < min(len(hours), len(rates))`, ignoring the
surplus entries of the longer list. -/
theorem income_truncates_to_shorter (i : ℕ) (hours rates : List ℚ)
    (v : String) (y : ℚ) (hne : hours.length ≠ rates.length) :
    PayRecord.income (.resident i hours rates)
      = ∑ k in Finset.range (min hours.length rates.length),
          hours.getD k 0 * rates.getD k 0 ∧
    PayRecord.income (.workingHoliday i hours rates v y)
      = y + ∑ k in Finset.range (min hours.length rates.length),
          hours.getD k 0 * rates.getD k 0 := by
  constructor
  · simpa [PayRecord.income] using sumPairs_eq_sum_range hours rates
  · simp [PayRecord.income, sumPairs_eq_sum_range hours rates]

/-- Witness for C9 at hours `[1, 2]`, rates `[3]` (surplus hour entry `2` is
ignored). -/
theorem income_truncates_to_shorter_witness :
    PayRecord.income (.resident 1 [1, 2] [3])
      = ∑ k in Finset.range (min (List.length [(1 : ℚ), 2]) (List.length [(3 : ℚ)])),
          List.getD [(1 : ℚ), 2] k 0 * List.getD [(3 : ℚ)] k 0 ∧
    PayRecord.income (.workingHoliday 1 [1, 2] [3] "417" 0)
      = 0 + ∑ k in Finset.range (min (List.length [(1 : ℚ), 2]) (List.length [(3 : ℚ)])),
          List.getD [(1 : ℚ), 2] k 0 * List.getD [(3 : ℚ)] k 0 :=
  income_truncates_to_shorter 1 [1, 2] [3] "417" 0 (by norm_num)

/-- Counterexample for C3 as stated: a row carrying the invalid hour `-1` for
an already-seen employee id is not rejected — `add_hours`/`add_rates` perform
no positivity validation, so the stored record is mutated. -/
theorem append_skips_validation_cex :
    processRow [(1, PayRecord.resident 1 [10] [40])]
        { employee_id := 1, hours := [-1], rates := [30], visa := none,
          year_to_date := 0 }
      = .ok [(1, PayRecord.resident 1 [10, -1] [40, 30])] ∧
    PayRecord.resident 1 [10, -1] [40, 30] ≠ PayRecord.resident 1 [10] [40] := by
  constructor
  · rfl
  · simp

/-- C3 (amended): a non-positive hour or rate is rejected by
`create_pay_record` before any record is constructed, so a first-seen
employee id gets no (partial) record; but for an already-seen employee id the
aggregation loop calls `add_hours`/`add_rates` directly, which validate
nothing — the invalid values are appended to the existing record. -/
theorem invalid_value_rejection_scope (m : List (ℕ × PayRecord)) (row : Row)
    (hbad : (∃ x ∈ row.hours, x ≤ 0) ∨ (∃ x ∈ row.rates, x ≤ 0)) :
    (m.lookup row.employee_id = none → ∃ e, processRow m row = .error e) ∧
    (∀ rec, m.lookup row.employee_id = some rec →
      processRow m row = .ok (updateRecord m row.employee_id
        (fun r => (r.add_hours row.hours).add_rates row.rates))) := by
  constructor
  · intro hnone
    simp only [processRow, hnone]
    by_cases hh : ∃ x ∈ row.hours, x ≤ 0
    · exact ⟨"Hours worked must be positive values",
        by simp [create_pay_record, hh, Except.map]⟩
    · have hr : ∃ x ∈ row.rates, x ≤ 0 := hbad.resolve_left hh
      exact ⟨"Rates must be positive values",
        by simp [create_pay_record, hh, hr, Except.map]⟩
  · intro rec h
    simp [processRow, h]

/-- Witness for C3 (amended) at the concrete row with hour `-1` against the
empty mapping. -/
theorem invalid_value_rejection_scope_witness :
    (List.lookup 1 ([] : List (ℕ × PayRecord)) = none →
      ∃ e, processRow []
        { employee_id := 1, hours := [-1], rates := [30], visa := none,
          year_to_date := 0 } = .error e) ∧
    (∀ rec, List.lookup 1 ([] : List (ℕ × PayRecord)) = some rec →
      processRow []
        { employee_id := 1, hours := [-1], rates := [30], visa := none,
          year_to_date := 0 }
        = .ok (updateRecord [] 1
            (fun r => (r.add_hours [-1]).add_rates [30]))) :=
  invalid_value_rejection_scope []
    { employee_id := 1, hours := [-1], rates := [30], visa := none,
      year_to_date := 0 }
    (Or.inl ⟨-1, by simp, by norm_num⟩)

/-- Counterexample for C4 as stated: with a two-column row in the middle of
the input, the `ValueError` raised inside the generator ends the iteration —
the well-formed row after it is never yielded, so processing of the remaining
rows does not proceed. -/
theorem malformed_row_drops_rest_cex :
    import_pay_records [["1", "10", "40"], ["2", "5"], ["3", "8", "50"]]
      = ([["1", "10", "40"]], some "A row does not contain 3 columns") ∧
    ["3", "8", "50"] ∉
      (import_pay_records [["1", "10", "40"], ["2", "5"], ["3", "8", "50"]]).1 := by
  constructor
  · rfl
  · decide

/-- C4 (amended): a row with fewer than `MIN_COLUMN_VAL` columns is rejected
with the "malformed row" `ValueError` before being yielded — it is never
indexed and never reaches the aggregation map — but the error terminates the
generator: exactly the well-formed prefix before it is yielded and all later
rows are dropped, so processing of the remainder of the file does not
proceed. -/
theorem malformed_row_stops_iteration (pre : List (List String))
    (bad : List String) (rest : List (List String))
    (hpre : ∀ r ∈ pre, MIN_COLUMN_VAL ≤ r.length)
    (hbad : bad.length < MIN_COLUMN_VAL) :
    import_pay_records (pre ++ bad :: rest)
      = (pre, some "A row does not contain 3 columns") := by
  induction pre with
  | nil => simp only [List.nil_append, import_pay_records, if_pos hbad]
  | cons r t ih =>
    have h1 : ¬ r.length < MIN_COLUMN_VAL := not_lt.mpr (hpre r (by simp))
    have ih2 := ih (fun x hx => hpre x (by simp [hx]))
    simp only [List.cons_append, import_pay_records, if_neg h1,
      List.append_eq, ih2]

/-- Witness for C4 (amended) on a concrete file: two well-formed rows, a
one-column row, then a well-formed row. -/
theorem malformed_row_stops_iteration_witness :
    import_pay_records
        ([["7", "1", "2"], ["7", "3", "4"]] ++ ["9"] :: [["8", "1", "2"]])
      = ([["7", "1", "2"], ["7", "3", "4"]],
         some "A row does not contain 3 columns") :=
  malformed_row_stops_iteration [["7", "1", "2"], ["7", "3", "4"]] ["9"]
    [["8", "1", "2"]]
    (by intro r hr; fin_cases hr <;> decide)
    (by decide)

/-- Helper: looking up the updated key after an in-place record update. -/
theorem lookup_updateRecord_self (m : List (ℕ × PayRecord)) (i : ℕ)
    (f : PayRecord → PayRecord) :
    (updateRecord m i f).lookup i = (m.lookup i).map f := by
  induction m with
  | nil => rfl
  | cons p rest ih =>
    obtain ⟨k, v⟩ := p
    simp only [updateRecord, List.map_cons]
    by_cases hk : k = i
    · subst hk
      rw [if_pos rfl]
      simp [List.lookup]
    · rw [if_neg hk]
      have hk2 : (i == k) = false :=
        beq_eq_false_iff_ne.mpr (fun h => hk h.symm)
      simp only [List.lookup, hk2]
      simpa [updateRecord] using ih

/-- Helper: looking up any other key after an in-place record update. -/
theorem lookup_updateRecord_ne (m : List (ℕ × PayRecord)) (i k : ℕ)
    (f : PayRecord → PayRecord) (hk : k ≠ i) :
    (updateRecord m i f).lookup k = m.lookup k := by
  induction m with
  | nil => rfl
  | cons p rest ih =>
    obtain ⟨j, v⟩ := p
    simp only [updateRecord, List.map_cons]
    by_cases hj : j = i
    · subst hj
      rw [if_pos rfl]
      have hkj : (k == j) = false := beq_eq_false_iff_ne.mpr hk
      simp only [List.lookup, hkj]
      simpa [updateRecord] using ih
    · rw [if_neg hj]
      simp only [List.lookup]
      cases hkj : k == j
      · simpa [updateRecord] using ih
      · rfl

/-- C7: the `_read_records` loop of `pay_records_refactor_2.py` creates a
record via the factory on the first occurrence of an employee id, and on
every later occurrence of the same id only appends that row's hours and rates
(positionally, at the end, preserving arrival order) to the stored record,
leaving its id, visa and year-to-date fields — and every other employee's
entry — unchanged. -/
theorem aggregator_create_or_append (m : List (ℕ × PayRecord)) (row : Row2) :
    (m.lookup row.employee_id = none →
      PaySlipGenerator.read_records_step m row
        = m ++ [(row.employee_id,
            PayRecordFactoryImpl.create row.employee_id row.hours row.rates
              row.visa row.year_to_date)]) ∧
    (∀ rec, m.lookup row.employee_id = some rec →
      (PaySlipGenerator.read_records_step m row).lookup row.employee_id
          = some ((rec.add_hours row.hours).add_rates row.rates) ∧
      ((rec.add_hours row.hours).add_rates row.rates).hours
          = rec.hours ++ row.hours ∧
      ((rec.add_hours row.hours).add_rates row.rates).rates
          = rec.rates ++ row.rates ∧
      ((rec.add_hours row.hours).add_rates row.rates).id = rec.id ∧
      ((rec.add_hours row.hours).add_rates row.rates).visa = rec.visa ∧
      ((rec.add_hours row.hours).add_rates row.rates).year_to_date
          = rec.year_to_date ∧
      (∀ k, k ≠ row.employee_id →
        (PaySlipGenerator.read_records_step m row).lookup k = m.lookup k)) := by
  constructor
  · intro hnone
    simp [PaySlipGenerator.read_records_step, hnone]
  · intro rec h
    have hstep : PaySlipGenerator.read_records_step m row
        = updateRecord m row.employee_id
            (fun r => (r.add_hours row.hours).add_rates row.rates) := by
      simp [PaySlipGenerator.read_records_step, h]
    refine ⟨?_, ?_, ?_, ?_, ?_, ?_, ?_⟩
    · rw [hstep, lookup_updateRecord_self, h, Option.map_some']
    · cases rec <;> rfl
    · cases rec <;> rfl
    · cases rec <;> rfl
    · cases rec <;> rfl
    · cases rec <;> rfl
    · intro k hk
      rw [hstep, lookup_updateRecord_ne _ _ _ _ hk]

/-- Witness for C7 at a concrete mapping holding employee `1` and a repeat
row for employee `1`. -/
theorem aggregator_create_or_append_witness :
    (PaySlipGenerator.read_records_step [(1, PayRecord.resident 1 [2] [4])]
        { employee_id := 1, hours := [3], rates := [5], visa := none,
          year_to_date := none }).lookup 1
      = some (PayRecord.resident 1 [2, 3] [4, 5]) := by
  have h := (aggregator_create_or_append [(1, PayRecord.resident 1 [2] [4])]
    { employee_id := 1, hours := [3], rates := [5], visa := none,
      year_to_date := none }).2 (PayRecord.resident 1 [2] [4]) rfl
  simpa [PayRecord.add_hours, PayRecord.add_rates] using h.1

/-- Helper: each nonnegative income lies in exactly one of the six resident
bands. -/
theorem resident_bracket_unique (x : ℚ) (hx : 0 ≤ x) :
    ∃! b, b ∈ ResidentPayRecord.TAX_BRACKETS ∧ inBracket b x := by
  rcases lt_or_le x 72 with h1 | h1
  · refine ⟨_, ⟨by simp [ResidentPayRecord.TAX_BRACKETS],
      (inBracket_coe_iff 0 72 0.19 0.19 x).mpr ⟨hx, h1⟩⟩, ?_⟩
    rintro b ⟨hb, hbx⟩
    simp only [ResidentPayRecord.TAX_BRACKETS, List.mem_cons,
      List.not_mem_nil, or_false] at hb
    rcases hb with rfl | rfl | rfl | rfl | rfl | rfl <;>
      first
        | rfl
        | (exfalso; rw [inBracket_coe_iff] at hbx; obtain ⟨hl, hu⟩ := hbx; linarith)
        | (exfalso; rw [inBracket_top_iff] at hbx; linarith)
  · rcases lt_or_le x 361 with h2 | h2
    · refine ⟨_, ⟨by simp [ResidentPayRecord.TAX_BRACKETS],
        (inBracket_coe_iff 72 361 0.2342 3.213 x).mpr ⟨h1, h2⟩⟩, ?_⟩
      rintro b ⟨hb, hbx⟩
      simp only [ResidentPayRecord.TAX_BRACKETS, List.mem_cons,
        List.not_mem_nil, or_false] at hb
      rcases hb with rfl | rfl | rfl | rfl | rfl | rfl <;>
        first
          | rfl
          | (exfalso; rw [inBracket_coe_iff] at hbx; obtain ⟨hl, hu⟩ := hbx; linarith)
          | (exfalso; rw [inBracket_top_iff] at hbx; linarith)
    · rcases lt_or_le x 932 with h3 | h3
      · refine ⟨_, ⟨by simp [ResidentPayRecord.TAX_BRACKETS],
          (inBracket_coe_iff 361 932 0.3477 44.2476 x).mpr ⟨h2, h3⟩⟩, ?_⟩
        rintro b ⟨hb, hbx⟩
        simp only [ResidentPayRecord.TAX_BRACKETS, List.mem_cons,
          List.not_mem_nil, or_false] at hb
        rcases hb with rfl | rfl | rfl | rfl | rfl | rfl <;>
          first
            | rfl
            | (exfalso; rw [inBracket_coe_iff] at hbx; obtain ⟨hl, hu⟩ := hbx; linarith)
            | (exfalso; rw [inBracket_top_iff] at hbx; linarith)
      · rcases lt_or_le x 1380 with h4 | h4
        · refine ⟨_, ⟨by simp [ResidentPayRecord.TAX_BRACKETS],
            (inBracket_coe_iff 932 1380 0.345 41.7311 x).mpr ⟨h3, h4⟩⟩, ?_⟩
          rintro b ⟨hb, hbx⟩
          simp only [ResidentPayRecord.TAX_BRACKETS, List.mem_cons,
            List.not_mem_nil, or_false] at hb
          rcases hb with rfl | rfl | rfl | rfl | rfl | rfl <;>
            first
              | rfl
              | (exfalso; rw [inBracket_coe_iff] at hbx; obtain ⟨hl, hu⟩ := hbx; linarith)
              | (exfalso; rw [inBracket_top_iff] at hbx; linarith)
        · rcases lt_or_le x 3111 with h5 | h5
          · refine ⟨_, ⟨by simp [ResidentPayRecord.TAX_BRACKETS],
              (inBracket_coe_iff 1380 3111 0.39 103.8657 x).mpr ⟨h4, h5⟩⟩, ?_⟩
            rintro b ⟨hb, hbx⟩
            simp only [ResidentPayRecord.TAX_BRACKETS, List.mem_cons,
              List.not_mem_nil, or_false] at hb
            rcases hb with rfl | rfl | rfl | rfl | rfl | rfl <;>
              first
                | rfl
                | (exfalso; rw [inBracket_coe_iff] at hbx; obtain ⟨hl, hu⟩ := hbx; linarith)
                | (exfalso; rw [inBracket_top_iff] at hbx; linarith)
          · refine ⟨_, ⟨by simp [ResidentPayRecord.TAX_BRACKETS],
              (inBracket_top_iff 3111 0.47 352.788 x).mpr h5⟩, ?_⟩
            rintro b ⟨hb, hbx⟩
            simp only [ResidentPayRecord.TAX_BRACKETS, List.mem_cons,
              List.not_mem_nil, or_false] at hb
            rcases hb with rfl | rfl | rfl | rfl | rfl | rfl <;>
              first
                | rfl
                | (exfalso; rw [inBracket_coe_iff] at hbx; obtain ⟨hl, hu⟩ := hbx; linarith)
                | (exfalso; rw [inBracket_top_iff] at hbx; linarith)

/-- Helper: each nonnegative income lies in exactly one of the four
working-holiday bands. -/
theorem workingHoliday_bracket_unique (x : ℚ) (hx : 0 ≤ x) :
    ∃! b, b ∈ WorkingHolidayPayRecord.TAX_BRACKETS ∧ inBracket b x := by
  rcases lt_or_le x 37000 with h1 | h1
  · refine ⟨_, ⟨by simp [WorkingHolidayPayRecord.TAX_BRACKETS],
      (inBracket_coe_iff 0 37000 0.15 0 x).mpr ⟨hx, h1⟩⟩, ?_⟩
    rintro b ⟨hb, hbx⟩
    simp only [WorkingHolidayPayRecord.TAX_BRACKETS, List.mem_cons,
      List.not_mem_nil, or_false] at hb
    rcases hb with rfl | rfl | rfl | rfl <;>
      first
        | rfl
        | (exfalso; rw [inBracket_coe_iff] at hbx; obtain ⟨hl, hu⟩ := hbx; linarith)
        | (exfalso; rw [inBracket_top_iff] at hbx; linarith)
  · rcases lt_or_le x 90000 with h2 | h2
    · refine ⟨_, ⟨by simp [WorkingHolidayPayRecord.TAX_BRACKETS],
        (inBracket_coe_iff 37000 90000 0.32 0 x).mpr ⟨h1, h2⟩⟩, ?_⟩
      rintro b ⟨hb, hbx⟩
      simp only [WorkingHolidayPayRecord.TAX_BRACKETS, List.mem_cons,
        List.not_mem_nil, or_false] at hb
      rcases hb with rfl | rfl | rfl | rfl <;>
        first
          | rfl
          | (exfalso; rw [inBracket_coe_iff] at hbx; obtain ⟨hl, hu⟩ := hbx; linarith)
          | (exfalso; rw [inBracket_top_iff] at hbx; linarith)
    · rcases lt_or_le x 180000 with h3 | h3
      · refine ⟨_, ⟨by simp [WorkingHolidayPayRecord.TAX_BRACKETS],
          (inBracket_coe_iff 90000 180000 0.37 0 x).mpr ⟨h2, h3⟩⟩, ?_⟩
        rintro b ⟨hb, hbx⟩
        simp only [WorkingHolidayPayRecord.TAX_BRACKETS, List.mem_cons,
          List.not_mem_nil, or_false] at hb
        rcases hb with rfl | rfl | rfl | rfl <;>
          first
            | rfl
            | (exfalso; rw [inBracket_coe_iff] at hbx; obtain ⟨hl, hu⟩ := hbx; linarith)
            | (exfalso; rw [inBracket_top_iff] at hbx; linarith)
      · refine ⟨_, ⟨by simp [WorkingHolidayPayRecord.TAX_BRACKETS],
          (inBracket_top_iff 180000 0.45 0 x).mpr h3⟩, ?_⟩
        rintro b ⟨hb, hbx⟩
        simp only [WorkingHolidayPayRecord.TAX_BRACKETS, List.mem_cons,
          List.not_mem_nil, or_false] at hb
        rcases hb with rfl | rfl | rfl | rfl <;>
          first
            | rfl
            | (exfalso; rw [inBracket_coe_iff] at hbx; obtain ⟨hl, hu⟩ := hbx; linarith)
            | (exfalso; rw [inBracket_top_iff] at hbx; linarith)

/-- C6: both fixed tables are contiguous (each band's upper bound is the next
band's lower bound), strictly ascending, and terminated by an infinite upper
bound; every nonnegative income lies in exactly one band of each table, so
the "no matching bracket" error branch of `calculate_tax` is unreachable for
nonnegative income. -/
theorem tax_brackets_partition (x : ℚ) (hx : 0 ≤ x) :
    List.Chain' (fun a b => a.upper_bound = (b.lower_bound : WithTop ℚ))
      ResidentPayRecord.TAX_BRACKETS ∧
    List.Chain' (fun a b => a.lower_bound < b.lower_bound)
      ResidentPayRecord.TAX_BRACKETS ∧
    (ResidentPayRecord.TAX_BRACKETS.map TaxBracket.upper_bound).getLast?
      = some ⊤ ∧
    List.Chain' (fun a b => a.upper_bound = (b.lower_bound : WithTop ℚ))
      WorkingHolidayPayRecord.TAX_BRACKETS ∧
    List.Chain' (fun a b => a.lower_bound < b.lower_bound)
      WorkingHolidayPayRecord.TAX_BRACKETS ∧
    (WorkingHolidayPayRecord.TAX_BRACKETS.map TaxBracket.upper_bound).getLast?
      = some ⊤ ∧
    (∃! b, b ∈ ResidentPayRecord.TAX_BRACKETS ∧ inBracket b x) ∧
    (∃! b, b ∈ WorkingHolidayPayRecord.TAX_BRACKETS ∧ inBracket b x) ∧
    (∃ t, TaxCalculator.calculate_tax ResidentPayRecord.TAX_BRACKETS x
      = .ok t) ∧
    (∃ t, TaxCalculator.calculate_tax WorkingHolidayPayRecord.TAX_BRACKETS x
      = .ok t) := by
  have hres := resident_bracket_unique x hx
  have hwh := workingHoliday_bracket_unique x hx
  refine ⟨?_, ?_, rfl, ?_, ?_, rfl, hres, hwh, ?_, ?_⟩
  · norm_num [ResidentPayRecord.TAX_BRACKETS, List.chain'_cons]
  · norm_num [ResidentPayRecord.TAX_BRACKETS, List.chain'_cons]
  · norm_num [WorkingHolidayPayRecord.TAX_BRACKETS, List.chain'_cons]
  · norm_num [WorkingHolidayPayRecord.TAX_BRACKETS, List.chain'_cons]
  · obtain ⟨b, ⟨hbm, hbx⟩, -⟩ := hres
    exact calculate_tax_ok_of_mem x _ ⟨b, hbm, hbx⟩
  · obtain ⟨b, ⟨hbm, hbx⟩, -⟩ := hwh
    exact calculate_tax_ok_of_mem x _ ⟨b, hbm, hbx⟩

/-- Witness for C6 at the concrete income `0`. -/
theorem tax_brackets_partition_witness :
    List.Chain' (fun a b => a.upper_bound = (b.lower_bound : WithTop ℚ))
      ResidentPayRecord.TAX_BRACKETS ∧
    List.Chain' (fun a b => a.lower_bound < b.lower_bound)
      ResidentPayRecord.TAX_BRACKETS ∧
    (ResidentPayRecord.TAX_BRACKETS.map TaxBracket.upper_bound).getLast?
      = some ⊤ ∧
    List.Chain' (fun a b => a.upper_bound = (b.lower_bound : WithTop ℚ))
      WorkingHolidayPayRecord.TAX_BRACKETS ∧
    List.Chain' (fun a b => a.lower_bound < b.lower_bound)
      WorkingHolidayPayRecord.TAX_BRACKETS ∧
    (WorkingHolidayPayRecord.TAX_BRACKETS.map TaxBracket.upper_bound).getLast?
      = some ⊤ ∧
    (∃! b, b ∈ ResidentPayRecord.TAX_BRACKETS ∧ inBracket b 0) ∧
    (∃! b, b ∈ WorkingHolidayPayRecord.TAX_BRACKETS ∧ inBracket b 0) ∧
    (∃ t, TaxCalculator.calculate_tax ResidentPayRecord.TAX_BRACKETS 0
      = .ok t) ∧
    (∃ t, TaxCalculator.calculate_tax WorkingHolidayPayRecord.TAX_BRACKETS 0
      = .ok t) :=
  tax_brackets_partition 0 (le_refl 0)
